import Mathlib

/-!
Shallow embedding of src/main.py (HabiTech): the fetch_california_data
pipeline - earthdata login, granule query and download with a filesystem
cache, multi-file open with per-granule preprocessing, fixed-grid
coordinate assignment, spatial subsetting, mean reduction, risk
classification, live-report shaping, and the catch-all fallback to a
static mock report.

Python floats are modelled as exact rationals with an explicit NaN
constructor (PFloat), which is what the missing-value semantics of the
mean reduction and of the classification comparison need. The external
collaborators (earthaccess, xarray/netCDF, the filesystem) are modelled
by an Env record of their observable behaviours for one run; every
pipeline step that can raise is modelled in Except.
-/

set_option maxRecDepth 8000

/- Batteries seals the rational-number operations; re-opening them for
this file lets concrete runs of the model evaluate inside decide and rfl
proofs. -/
attribute [local semireducible] Rat.add Rat.mul Rat.sub Rat.inv Rat.ofScientific

namespace HabiTech

/-- A Python float value as the pipeline observes it: either NaN or an
exact rational. -/
inductive PFloat where
  | nan : PFloat
  | val : ℚ → PFloat
  deriving DecidableEq

/-- src/main.py line 15: the fixed classification threshold 1.6e-9. -/
def HIGH_RISK_THRESHOLD : ℚ := 1.6e-9

deriving instance DecidableEq for Except

/-- fnmatch-style glob matching restricted to the asterisk wildcard,
fuel-indexed so it reduces by structural recursion; every recursive call
shrinks the combined length of pattern and name, so the fuel used by
globMatch below never runs out. -/
def globMatchAux : Nat → List Char → List Char → Bool
  | 0, _, _ => false
  | _ + 1, [], s => s.isEmpty
  | fuel + 1, '*' :: p, [] => globMatchAux fuel p []
  | fuel + 1, '*' :: p, c :: s =>
    globMatchAux fuel p (c :: s) || globMatchAux fuel ('*' :: p) s
  | fuel + 1, c :: p, d :: s => c == d && globMatchAux fuel p s
  | _ + 1, _ :: _, [] => false

/-- fnmatch-style glob matching restricted to the asterisk wildcard (the
only metacharacter appearing in the two patterns of src/main.py lines 55
and 58): an asterisk matches any character sequence, every other
character matches itself literally, and the whole name must match. -/
def globMatch (p s : List Char) : Bool :=
  globMatchAux (p.length + s.length + 1) p s

/-- glob.glob over a directory listing: the names in the cache directory
matching the pattern, in listing order. -/
def glob (pat : String) (cache : List String) : List String :=
  cache.filter (fun name => globMatch pat.data name.data)

/-- The pre-download cache-check pattern of src/main.py line 55
("tempo_data/OMI-Aura_L3.*he5", with the directory prefix dropped since
the model's cache listing holds bare file names). -/
def globCheckPat : String := "OMI-Aura_L3.*he5"

/-- The post-download usable-files pattern of src/main.py line 58
("tempo_data/OMI-Aura_L3*.he5", directory prefix dropped likewise). -/
def globUsePat : String := "OMI-Aura_L3*.he5"

/-- One opened HE5 granule group: the tropospheric NO2 field on the
720x1440 global grid, indexed (lat-index, lon-index), plus presence of
the auxiliary Weight variable that preprocess_omi_l3 drops. -/
structure RawGranule where
  no2 : Nat → Nat → PFloat
  hasWeight : Bool

/-- A granule after preprocessing: dimensions renamed to lat/lon, Weight
dropped, and a size-1 time axis added (in this model the time axis is
the granule's position in the concatenation list). -/
structure NormalizedGranule where
  no2 : Nat → Nat → PFloat

/-- src/main.py lines 77-91. The dimension rename and expand_dims are
structural: the model's grid is already indexed (lat, lon) and time is
the list position, so the remaining observable effect is dropping the
Weight variable. -/
def preprocess_omi_l3 (ds : RawGranule) : NormalizedGranule :=
  { no2 := ds.no2 }

/-- Observable behaviour of the external collaborators for one run:
earthaccess.login (loginOk = false means it raises),
earthaccess.search_data (none means it raises, some rs is the granule
result list), the tempo_data cache directory listing before the run,
earthaccess.download (given the search results and the current listing,
it returns the listing after the download, none meaning it raises), and
xr.open_mfdataset with the preprocessing hook (given the globbed file
list, the opened raw granules, none meaning it raises on a malformed or
unreadable file). -/
structure Env where
  loginOk : Bool
  searchResults : Option (List String)
  cache : List String
  download : List String → List String → Option (List String)
  openData : List String → Option (List RawGranule)

/-- The exceptions the live path can raise; fetch_california_data
collapses all of them into the same mock fallback. -/
inductive PipeErr where
  | authError
  | searchError
  | downloadError
  | noData
  | openError
  deriving DecidableEq

/-- src/main.py lines 44-70: search, cache check against globCheckPat,
conditional download, re-glob against globUsePat, and the raise of
FileNotFoundError (the NoDataFound condition) when the re-glob is empty.
The Bool records whether earthaccess.download was called. -/
def acquire (env : Env) : Bool × Except PipeErr (List String) :=
  match env.searchResults with
  | none => (false, Except.error PipeErr.searchError)
  | some rs =>
    let files1 := glob globCheckPat env.cache
    if files1.isEmpty then
      match env.download rs env.cache with
      | none => (true, Except.error PipeErr.downloadError)
      | some cache2 =>
        let files := glob globUsePat cache2
        if files.isEmpty then (true, Except.error PipeErr.noData)
        else (true, Except.ok files)
    else
      let files := glob globUsePat env.cache
      if files.isEmpty then (false, Except.error PipeErr.noData)
      else (false, Except.ok files)

/-- src/main.py lines 35-37: the California bounding box. -/
def lon_min : ℚ := -124.48

def lat_min : ℚ := 32.53

def lon_max : ℚ := -114.13

def lat_max : ℚ := 42.01

/-- np.linspace with the default endpoint=True: n evenly spaced samples
from a to b inclusive, in exact rational arithmetic. -/
def linspace (a b : ℚ) (n : ℕ) : List ℚ :=
  (List.range n).map (fun i => a + (i : ℚ) * ((b - a) / ((n : ℚ) - 1)))

/-- src/main.py line 107: the fixed global latitude vector. -/
def latCoords : List ℚ := linspace (-89.875) 89.875 720

/-- src/main.py line 108: the fixed global longitude vector. -/
def lonCoords : List ℚ := linspace (-179.875) 179.875 1440

/-- Indices picked by .sel with a slice on a monotonically increasing
coordinate: label-based slicing is inclusive at both endpoints. -/
def selIdx (coords : List ℚ) (lo hi : ℚ) : List Nat :=
  (((List.range coords.length).zip coords).filter
    (fun p => decide (lo ≤ p.2) && decide (p.2 ≤ hi))).map (fun p => p.1)

/-- Latitude indices of the California box after coordinate assignment
(src/main.py lines 118-121). -/
def latSel : List Nat := selIdx latCoords lat_min lat_max

/-- Longitude indices of the California box after coordinate assignment
(src/main.py lines 118-121). -/
def lonSel : List Nat := selIdx lonCoords lon_min lon_max

/-- The xarray mean reduction with its default skipna=True: the
arithmetic mean of the non-NaN values; an all-NaN (or empty) selection
reduces to NaN. -/
def meanPF (vs : List PFloat) : PFloat :=
  let fs := vs.filterMap (fun v =>
    match v with
    | PFloat.nan => none
    | PFloat.val q => some q)
  if fs.isEmpty then PFloat.nan
  else PFloat.val (fs.sum / (fs.length : ℚ))

/-- src/main.py lines 106-125: assign the fixed 0.25-degree global grid
coordinates to the concatenated dataset, select the California box with
.sel, and take the mean of ColumnAmountNO2Trop over lat, lon and time. -/
def computeMean (grids : List NormalizedGranule) : PFloat :=
  meanPF (grids.flatMap (fun g =>
    latSel.flatMap (fun i => lonSel.map (fun j => g.no2 i j))))

/-- src/main.py line 133: the Python float comparison mean >= threshold;
with NaN on the left it is False. -/
def pfGe (x : PFloat) (t : ℚ) : Bool :=
  match x with
  | PFloat.nan => false
  | PFloat.val q => decide (t ≤ q)

/-- Round-half-even of p / q for q > 0: the rounding Python applies to
the decimal digits when formatting. -/
def roundHalfEven (p q : ℕ) : ℕ :=
  let d := p / q
  let r := p % q
  if 2 * r < q then d
  else if q < 2 * r then d + 1
  else if d % 2 = 0 then d else d + 1

/-- The number of decimal digits of n (1 for n = 0), via the core
decimal-digit expansion. -/
def numDigits (n : ℕ) : ℕ :=
  (Nat.toDigits 10 n).length

/-- Mantissa and exponent of a / b > 0 for 2-decimal scientific
notation: returns (m, e) with m the rounded value of 100 * (a/b) /
10^e, normally in 100..999, and e the decimal exponent. Exact for a / b
at least 10^-60, far beyond the magnitudes this pipeline can meet. -/
def sciParts2 (a b : ℕ) : ℕ × Int :=
  let n := a * 10 ^ 60 / b
  let e : Int := ((numDigits n : Int) - 1) - 60
  let m :=
    if e < 0 then roundHalfEven (a * 100 * 10 ^ (-e).toNat) b
    else roundHalfEven (a * 100) (b * 10 ^ e.toNat)
  if m = 1000 then (100, e + 1) else (m, e)

/-- Zero-pad a digit string to width 2 (Python prints exponents with at
least two digits, and the fractional mantissa digits are exactly two). -/
def pad2 (s : String) : String :=
  if s.length < 2 then "0" ++ s else s

/-- The exponent part of the formatted value: lowercase marker, explicit
sign, at least two digits. -/
def expPart (e : Int) : String :=
  if e < 0 then "e-" ++ pad2 (toString (-e).toNat)
  else "e+" ++ pad2 (toString e.toNat)

/-- The mantissa part d.dd built from the rounded 3-digit mantissa. -/
def mantissaPart (m : ℕ) : String :=
  toString (m / 100) ++ "." ++ pad2 (toString (m % 100))

/-- Python format(x, ".2e") on a finite float, on the model's exact
rationals: scientific notation with two decimal digits of mantissa, a
lowercase exponent marker and an explicit exponent sign. -/
def formatSci2 (x : ℚ) : String :=
  if x = 0 then "0.00e+00"
  else if 0 < x then
    mantissaPart (sciParts2 x.num.toNat x.den).1 ++
      expPart (sciParts2 x.num.toNat x.den).2
  else
    "-" ++ mantissaPart (sciParts2 (-x.num).toNat x.den).1 ++
      expPart (sciParts2 (-x.num).toNat x.den).2

/-- src/main.py line 128 on a possibly-NaN value: Python renders a NaN
as "nan" under the .2e format. -/
def formatPF (x : PFloat) : String :=
  match x with
  | PFloat.nan => "nan"
  | PFloat.val q => formatSci2 q

/-- src/main.py lines 132-140: the risk assessment, returning
(risk_level, risk_color_hex, risk_interpretation) from the reduction
result and its formatted rendering. -/
def riskAssessment (mean : PFloat) (formatted : String) :
    String × String × String :=
  if pfGe mean HIGH_RISK_THRESHOLD then
    ("HIGH RISK", "#DC2626",
      "HIGH RISK: Concentration (" ++ formatted ++
        ") exceeds the threshold (" ++ formatSci2 HIGH_RISK_THRESHOLD ++
        "), suggesting severe air quality stress from pollution.")
  else
    ("LOW/MODERATE RISK", "#059669",
      "LOW/MODERATE RISK: Concentration (" ++ formatted ++
        ") is below the threshold, suggesting acceptable air quality for the period.")

/-- A report metric dictionary (src/main.py report shapes). -/
structure Metric where
  name : String
  value : String
  unit : String
  interpretation : String
  deriving DecidableEq

/-- A report dictionary. The three UI-control keys are optional because
the mock dictionary omits them entirely. -/
structure Report where
  region_name : String
  analysis_date : String
  summary : String
  metrics : List Metric
  recommendations : List String
  is_live_data : Option Bool := none
  risk_color_hex : Option String := none
  risk_level : Option String := none
  deriving DecidableEq

/-- src/main.py lines 127-168: format the mean, assess the risk, and
shape the live report; today stands for time.strftime of the current
date. -/
def real_data (mean : PFloat) (today : String) : Report :=
  let formatted_no2 := formatPF mean
  let ra := riskAssessment mean formatted_no2
  { region_name := "Greater California Area (Live Earthdata)"
    analysis_date := today ++ " (Live)"
    summary := "Live AI analysis confirms **" ++ ra.1 ++
      "** air quality risk. Based on OMI data, the average Tropospheric NO2 in the BBOX is **" ++
      formatted_no2 ++ " moles/cm²**."
    metrics := [
      { name := "Average Tropospheric NO2"
        value := formatted_no2
        unit := "moles/cm²"
        interpretation := ra.2.2 },
      { name := "Data Source"
        value := "NASA OMI/Aura"
        unit := "Satellite"
        interpretation := "Analysis using actual satellite data for the specified period." }]
    recommendations := [
      "Implement dynamic traffic metering to reduce localized NO2 spikes.",
      "Promote public transport usage during peak NO2 hours.",
      "Review industrial emission standards in areas with peak NO2 readings."]
    is_live_data := some true
    risk_color_hex := some ra.2.1
    risk_level := some ra.1 }

/-- src/main.py lines 175-190: the fully static mock report returned by
the fallback path. -/
def mock_data : Report :=
  { region_name := "Greater Los Angeles Area (Simulated)"
    analysis_date := "2024-10-01 (Simulated)"
    summary := "AI analysis highlights extreme Urban Heat Island effects and correlated pollution spikes near major transport hubs."
    metrics := [
      { name := "Average Tropospheric NO2"
        value := "5.50e+15"
        unit := "moles/cm²"
        interpretation := "Simulated high NO2 concentration reflecting heavy urban activity and traffic." },
      { name := "Average Land Surface Temperature (LST)"
        value := "95.2°F"
        unit := "Fahrenheit"
        interpretation := "High LST suggests severe Urban Heat Island effect, necessitating green infrastructure interventions." },
      { name := "NDVI (Vegetation Index) Score"
        value := "0.15"
        unit := "Index (0-1)"
        interpretation := "Extremely low score, indicating insufficient park coverage and tree canopy for heat mitigation." },
      { name := "Precipitation Anomaly"
        value := "-3.2 inches"
        unit := "Inches (vs historical avg)"
        interpretation := "Significant long-term drought conditions confirmed by NASA\x27s GRACE-FO data, critical water management required." }]
    recommendations := [
      "Mandate reflective roofing materials across all new industrial development.",
      "Implement a \x27Cool Pavement\x27 pilot program in high-LST residential zones.",
      "Identify 50 acres for new urban agriculture and vertical farming projects to improve NDVI and air quality."] }

/-- The live path of src/main.py lines 27-168 as one Except-valued
computation: login, acquisition, open-and-preprocess, then the reduction
and report shaping (which themselves cannot raise). -/
def runPipeline (env : Env) (today : String) : Except PipeErr Report :=
  if env.loginOk then
    match (acquire env).2 with
    | Except.error e => Except.error e
    | Except.ok files =>
      match env.openData files with
      | none => Except.error PipeErr.openError
      | some gs =>
        Except.ok (real_data (computeMean (gs.map preprocess_omi_l3)) today)
  else Except.error PipeErr.authError

/-- src/main.py lines 18-192: the whole function, with the catch-all
except block turning every raised exception into the mock report. -/
def fetch_california_data (env : Env) (today : String) : Report :=
  match runPipeline env today with
  | Except.ok r => r
  | Except.error _ => mock_data

/-- A run whose login raises (missing credentials). -/
def envAuthFail : Env :=
  { loginOk := false
    searchResults := none
    cache := []
    download := fun _ _ => none
    openData := fun _ => none }

/-- A granule whose NO2 field is NaN everywhere (an all-missing file),
carrying a Weight variable for the preprocessing to drop. -/
def nanRaw : RawGranule :=
  { no2 := fun _ _ => PFloat.nan
    hasWeight := true }

/-- A run in which every step succeeds - a cached file matching both
glob patterns, a successful open - but the opened granule is all-NaN,
so the reduction result is NaN. -/
def envAllNaN : Env :=
  { loginOk := true
    searchResults := some ["G1"]
    cache := ["OMI-Aura_L3.he5"]
    download := fun _ c => some c
    openData := fun _ => some [nanRaw] }

/-- A run whose cache already holds a granule file with the real OMNO2d
naming (the name is one of the commented-out examples in src/main.py
lines 62-66); the download leaves the listing unchanged. -/
def envC4 : Env :=
  { loginOk := true
    searchResults := some ["G1"]
    cache := ["OMI-Aura_L3-OMNO2d_2025m0101_v003-2025m0104t055810.he5"]
    download := fun _ c => some c
    openData := fun _ => none }

/-- A run whose query returns zero results while the cache already holds
a file with the real OMNO2d naming. -/
def envC6 : Env :=
  { loginOk := true
    searchResults := some []
    cache := ["OMI-Aura_L3-OMNO2d_2025m0101_v003-2025m0104t055810.he5"]
    download := fun _ c => some c
    openData := fun _ => none }

/-- A run with an empty query and an empty cache whose download succeeds
without producing any file. -/
def envW : Env :=
  { loginOk := true
    searchResults := some []
    cache := []
    download := fun _ _ => some []
    openData := fun _ => none }

end HabiTech

namespace HabiTech

/-! Helper lemmas shared by the claim theorems below. -/

/-- An all-NaN granule reduces to a NaN mean over the California box. -/
lemma computeMean_allNaN :
    computeMean ([nanRaw].map preprocess_omi_l3) = PFloat.nan := by
  decide

/-- A raised pipeline exception is converted into the mock report. -/
lemma runPipeline_error_mock (env : Env) (today : String) (e : PipeErr)
    (h : runPipeline env today = Except.error e) :
    fetch_california_data env today = mock_data := by
  simp [fetch_california_data, h]

/-- A raised acquisition exception is converted into the mock report,
whatever the login outcome. -/
lemma acquire_error_mock (env : Env) (today : String) (e : PipeErr)
    (h : (acquire env).2 = Except.error e) :
    fetch_california_data env today = mock_data := by
  by_cases hl : env.loginOk = true
  · exact runPipeline_error_mock env today e (by simp [runPipeline, hl, h])
  · exact runPipeline_error_mock env today PipeErr.authError (by simp [runPipeline, hl])

/-- The live report never coincides with the mock report (their region
names differ). -/
lemma real_data_ne_mock (pf : PFloat) (today : String) :
    real_data pf today ≠ mock_data := by
  intro h
  have hn := congrArg Report.region_name h
  simp [real_data, mock_data] at hn

/-- When login, acquisition and the multi-file open all succeed, the
function returns the live report shaped from the reduction result. -/
lemma runPipeline_ok (env : Env) (today : String) (files : List String)
    (gs : List RawGranule) (hl : env.loginOk = true)
    (ha : (acquire env).2 = Except.ok files) (ho : env.openData files = some gs) :
    runPipeline env today =
      Except.ok (real_data (computeMean (gs.map preprocess_omi_l3)) today) := by
  simp [runPipeline, hl, ha, ho]

end HabiTech

namespace HabiTech

/-- C1: every exception raised anywhere in the live pipeline makes
fetch_california_data return the fully static mock report - fixed
simulated region name and analysis date, exactly four fixed metrics
(NO2, land-surface temperature, vegetation index, precipitation
anomaly), three fixed recommendation strings, and never a partially
populated live report. -/
theorem fetch_error_yields_static_mock (env : Env) (today : String) (e : PipeErr)
    (h : runPipeline env today = Except.error e) :
    fetch_california_data env today = mock_data ∧
    mock_data.region_name = "Greater Los Angeles Area (Simulated)" ∧
    mock_data.analysis_date = "2024-10-01 (Simulated)" ∧
    mock_data.metrics.map Metric.name =
      ["Average Tropospheric NO2", "Average Land Surface Temperature (LST)",
        "NDVI (Vegetation Index) Score", "Precipitation Anomaly"] ∧
    mock_data.recommendations.length = 3 ∧
    mock_data.is_live_data = none := by
  exact ⟨runPipeline_error_mock env today e h, rfl, rfl, rfl, rfl, rfl⟩

/-- Witness for C1: a run with failing authentication returns exactly
the mock report. -/
theorem fetch_error_yields_static_mock_witness :
    runPipeline envAuthFail "2025-10-12" = Except.error PipeErr.authError ∧
    fetch_california_data envAuthFail "2025-10-12" = mock_data :=
  ⟨rfl, (fetch_error_yields_static_mock envAuthFail "2025-10-12" PipeErr.authError rfl).1⟩

/-- C2: on the live path the classification sets risk_level to
"HIGH RISK" exactly when the finite mean is at least HIGH_RISK_THRESHOLD
(inclusive at the boundary), and to "LOW/MODERATE RISK" otherwise; the
live report's risk_level field is the classification's result. -/
theorem risk_threshold_classification (q : ℚ) (s : String) (today : String) :
    (riskAssessment (PFloat.val q) s).1 =
      (if HIGH_RISK_THRESHOLD ≤ q then "HIGH RISK" else "LOW/MODERATE RISK") ∧
    (riskAssessment (PFloat.val HIGH_RISK_THRESHOLD) s).1 = "HIGH RISK" ∧
    (real_data (PFloat.val q) today).risk_level =
      some (riskAssessment (PFloat.val q) (formatSci2 q)).1 := by
  refine ⟨?_, ?_, rfl⟩
  · by_cases h : HIGH_RISK_THRESHOLD ≤ q
    · simp [riskAssessment, pfGe, h]
    · simp [riskAssessment, pfGe, h]
  · simp [riskAssessment, pfGe]

/-- Counterexample to C3 as stated: a run in which every pipeline step
succeeds but the reduction result is NaN does not return the mock
report - it returns a live report. -/
theorem nan_reduction_cex :
    computeMean ([nanRaw].map preprocess_omi_l3) = PFloat.nan ∧
    fetch_california_data envAllNaN "2025-10-12" ≠ mock_data ∧
    (fetch_california_data envAllNaN "2025-10-12").is_live_data = some true := by
  refine ⟨computeMean_allNaN, ?_, ?_⟩
  · have hr := runPipeline_ok envAllNaN "2025-10-12" ["OMI-Aura_L3.he5"] [nanRaw]
      rfl (by decide) rfl
    rw [computeMean_allNaN] at hr
    have hf : fetch_california_data envAllNaN "2025-10-12" =
        real_data PFloat.nan "2025-10-12" := by
      simp [fetch_california_data, hr]
    rw [hf]
    exact real_data_ne_mock PFloat.nan "2025-10-12"
  · have hr := runPipeline_ok envAllNaN "2025-10-12" ["OMI-Aura_L3.he5"] [nanRaw]
      rfl (by decide) rfl
    rw [computeMean_allNaN] at hr
    simp [fetch_california_data, hr]
    rfl

/-- C3 amended: a NaN reduction result does not trigger the fallback;
the function returns the live report shaped from the NaN value, never
the mock report. -/
theorem nan_reduction_no_fallback (env : Env) (today : String) (files : List String)
    (gs : List RawGranule) (hl : env.loginOk = true)
    (ha : (acquire env).2 = Except.ok files) (ho : env.openData files = some gs)
    (hm : computeMean (gs.map preprocess_omi_l3) = PFloat.nan) :
    fetch_california_data env today = real_data PFloat.nan today ∧
    (real_data PFloat.nan today).is_live_data = some true ∧
    fetch_california_data env today ≠ mock_data := by
  have hr := runPipeline_ok env today files gs hl ha ho
  rw [hm] at hr
  have hf : fetch_california_data env today = real_data PFloat.nan today := by
    simp [fetch_california_data, hr]
  exact ⟨hf, rfl, by rw [hf]; exact real_data_ne_mock PFloat.nan today⟩

/-- Witness for the amended C3 at the concrete all-NaN run. -/
theorem nan_reduction_no_fallback_witness :
    fetch_california_data envAllNaN "2025-10-12" = real_data PFloat.nan "2025-10-12" ∧
    (real_data PFloat.nan "2025-10-12").is_live_data = some true ∧
    fetch_california_data envAllNaN "2025-10-12" ≠ mock_data :=
  nan_reduction_no_fallback envAllNaN "2025-10-12" ["OMI-Aura_L3.he5"] [nanRaw]
    rfl (by decide) rfl computeMean_allNaN

/-- C4 evaluated at the failing input: a cached granule file carrying
the real OMNO2d naming (taken from the commented-out examples in
src/main.py) matches the post-download pattern, yet the pre-download
cache check matches nothing, so the download is issued again. -/
theorem cache_check_never_matches_downloads :
    glob globUsePat envC4.cache =
      ["OMI-Aura_L3-OMNO2d_2025m0101_v003-2025m0104t055810.he5"] ∧
    glob globCheckPat envC4.cache = [] ∧
    (acquire envC4).1 = true := by
  decide

/-- C5: fetch_california_data is total - for every environment
behaviour it returns a report, the live one when the pipeline ran
through, the mock one when any step raised. -/
theorem fetch_total (env : Env) (today : String) :
    (∃ r, runPipeline env today = Except.ok r ∧ fetch_california_data env today = r) ∨
    (∃ e, runPipeline env today = Except.error e ∧
      fetch_california_data env today = mock_data) := by
  cases h : runPipeline env today with
  | ok r => exact Or.inl ⟨r, rfl, by simp [fetch_california_data, h]⟩
  | error e => exact Or.inr ⟨e, rfl, by simp [fetch_california_data, h]⟩

/-- Counterexample to C6 as stated: a run whose query returns zero
results but whose cache holds a file matching the post-download glob
does not raise the NoDataFound condition - acquisition succeeds with
the cached file. -/
theorem empty_query_not_noData_cex :
    envC6.searchResults = some [] ∧
    (acquire envC6).2 =
      Except.ok ["OMI-Aura_L3-OMNO2d_2025m0101_v003-2025m0104t055810.he5"] ∧
    ¬((acquire envC6).2 = Except.error PipeErr.noData) := by
  decide

/-- C6 amended: the NoDataFound condition (FileNotFoundError) is raised
exactly when, after the conditional download, no file matches the
usable-files glob; a zero-result query triggers it only through that
emptiness, and the outer fallback converts it into the mock report. -/
theorem noData_only_when_glob_empty (env : Env) (rs c2 : List String) (today : String)
    (hs : env.searchResults = some rs) :
    (glob globCheckPat env.cache ≠ [] →
      ((acquire env).2 = Except.error PipeErr.noData ↔
        glob globUsePat env.cache = [])) ∧
    (glob globCheckPat env.cache = [] → env.download rs env.cache = some c2 →
      ((acquire env).2 = Except.error PipeErr.noData ↔ glob globUsePat c2 = [])) ∧
    ((acquire env).2 = Except.error PipeErr.noData →
      fetch_california_data env today = mock_data) := by
  refine ⟨?_, ?_, fun h => acquire_error_mock env today PipeErr.noData h⟩
  · intro hck
    rcases hglob : glob globCheckPat env.cache with _ | ⟨a, l⟩
    · exact absurd hglob hck
    · rcases hglob2 : glob globUsePat env.cache with _ | ⟨b, m⟩
      · simp [acquire, hs, hglob, hglob2]
      · simp [acquire, hs, hglob, hglob2]
  · intro hck hdl
    rcases hglob2 : glob globUsePat c2 with _ | ⟨b, m⟩
    · simp [acquire, hs, hck, hdl, hglob2]
    · simp [acquire, hs, hck, hdl, hglob2]

/-- Witness for the amended C6: an empty query over an empty cache with
a download that produces nothing raises NoDataFound and falls back to
the mock report. -/
theorem noData_only_when_glob_empty_witness :
    (acquire envW).2 = Except.error PipeErr.noData ∧
    fetch_california_data envW "2025-10-12" = mock_data := by
  have h := noData_only_when_glob_empty envW [] [] "2025-10-12" rfl
  have h1 : (acquire envW).2 = Except.error PipeErr.noData := (h.2.1 rfl rfl).mpr rfl
  exact ⟨h1, h.2.2 h1⟩

/-- C7: the live path formats the mean in scientific notation with two
decimal digits of mantissa, a lowercase exponent marker and an explicit
exponent sign; in particular a reduction result of 0.0000000016 formats
to "1.60e-09", and that string is the live report's NO2 metric value. -/
theorem mean_format_scientific :
    formatSci2 (0.0000000016 : ℚ) = "1.60e-09" ∧
    (∀ today : String,
      ((real_data (PFloat.val 0.0000000016) today).metrics.map Metric.value).head? =
        some "1.60e-09") ∧
    (∀ x : ℚ, 0 < x →
      formatSci2 x = mantissaPart (sciParts2 x.num.toNat x.den).1 ++
        expPart (sciParts2 x.num.toNat x.den).2) ∧
    (∀ e : Int, (∃ s, expPart e = "e-" ++ s) ∨ (∃ s, expPart e = "e+" ++ s)) := by
  refine ⟨by decide, fun today => rfl, ?_, ?_⟩
  · intro x hx
    have h0 : ¬(x = 0) := ne_of_gt hx
    simp [formatSci2, h0, hx]
  · intro e
    by_cases he : e < 0
    · exact Or.inl ⟨pad2 (toString (-e).toNat), by simp [expPart, he]⟩
    · exact Or.inr ⟨pad2 (toString e.toNat), by simp [expPart, he]⟩

/-- Witness for C7's general decomposition at the input 1. -/
theorem mean_format_scientific_witness :
    (0 : ℚ) < 1 ∧ formatSci2 (1 : ℚ) =
      mantissaPart (sciParts2 (1 : ℚ).num.toNat (1 : ℚ).den).1 ++
        expPart (sciParts2 (1 : ℚ).num.toNat (1 : ℚ).den).2 :=
  ⟨by decide, mean_format_scientific.2.2.1 1 (by decide)⟩

/-- C8: every live report has is_live_data true, a summary embedding
both the risk level and the formatted mean, exactly one NO2 metric plus
the fixed Data Source metric, three fixed recommendations, and a risk
colour keyed by the risk level (HIGH RISK to the red hex, otherwise the
green hex); the mock report has none of the three UI-control fields. -/
theorem live_report_shape (pf : PFloat) (today : String) :
    (real_data pf today).is_live_data = some true ∧
    (real_data pf today).risk_level = some (riskAssessment pf (formatPF pf)).1 ∧
    (riskAssessment pf (formatPF pf)).1.data <:+: (real_data pf today).summary.data ∧
    (formatPF pf).data <:+: (real_data pf today).summary.data ∧
    (real_data pf today).metrics.map Metric.name =
      ["Average Tropospheric NO2", "Data Source"] ∧
    (real_data pf today).metrics.map Metric.value = [formatPF pf, "NASA OMI/Aura"] ∧
    (real_data pf today).recommendations.length = 3 ∧
    (real_data pf today).risk_color_hex =
      some (if (real_data pf today).risk_level = some "HIGH RISK"
        then "#DC2626" else "#059669") ∧
    mock_data.is_live_data = none ∧
    mock_data.risk_color_hex = none ∧
    mock_data.risk_level = none := by
  refine ⟨rfl, rfl, ?_, ?_, rfl, rfl, rfl, ?_, rfl, rfl, rfl⟩
  · exact ⟨"Live AI analysis confirms **".data,
      ("** air quality risk. Based on OMI data, the average Tropospheric NO2 in the BBOX is **"
        ++ formatPF pf ++ " moles/cm²**.").data,
      by simp [real_data, List.append_assoc]⟩
  · exact ⟨("Live AI analysis confirms **" ++ (riskAssessment pf (formatPF pf)).1 ++
        "** air quality risk. Based on OMI data, the average Tropospheric NO2 in the BBOX is **").data,
      (" moles/cm²**." : String).data,
      by simp [real_data, List.append_assoc]⟩
  · by_cases hb : pfGe pf HIGH_RISK_THRESHOLD = true
    · simp [real_data, riskAssessment, hb]
    · simp [real_data, riskAssessment, hb]

/-- C9: the coordinate vectors assigned after concatenation are the
fixed global 0.25-degree grid - 720 evenly spaced latitudes from
-89.875 to 89.875 and 1440 evenly spaced longitudes from -179.875 to
179.875 - constants of the pipeline, independent of any per-file
metadata. -/
theorem global_grid_coordinates :
    latCoords.length = 720 ∧
    latCoords.head? = some (-89.875 : ℚ) ∧
    latCoords.getLast? = some (89.875 : ℚ) ∧
    ((latCoords.zip latCoords.tail).all
      (fun p => decide (p.2 - p.1 = (0.25 : ℚ))) = true) ∧
    lonCoords.length = 1440 ∧
    lonCoords.head? = some (-179.875 : ℚ) ∧
    lonCoords.getLast? = some (179.875 : ℚ) ∧
    ((lonCoords.zip lonCoords.tail).all
      (fun p => decide (p.2 - p.1 = (0.25 : ℚ))) = true) := by
  decide

/-- C10: when every step succeeds but the reduction result is NaN, the
function returns a live report whose risk level is LOW/MODERATE (the
NaN comparison is false, with no NaN check before classification) and
whose NO2 metric value is the formatted NaN string. -/
theorem nan_mean_live_low_risk (env : Env) (today : String) (files : List String)
    (gs : List RawGranule) (hl : env.loginOk = true)
    (ha : (acquire env).2 = Except.ok files) (ho : env.openData files = some gs)
    (hm : computeMean (gs.map preprocess_omi_l3) = PFloat.nan) :
    (fetch_california_data env today).is_live_data = some true ∧
    (fetch_california_data env today).risk_level = some "LOW/MODERATE RISK" ∧
    ((fetch_california_data env today).metrics.map Metric.value).head? = some "nan" := by
  have hr := runPipeline_ok env today files gs hl ha ho
  rw [hm] at hr
  have hf : fetch_california_data env today = real_data PFloat.nan today := by
    simp [fetch_california_data, hr]
  rw [hf]
  exact ⟨rfl, rfl, rfl⟩

/-- Witness for C10 at the concrete all-NaN run. -/
theorem nan_mean_live_low_risk_witness :
    (fetch_california_data envAllNaN "2025-10-12").is_live_data = some true ∧
    (fetch_california_data envAllNaN "2025-10-12").risk_level =
      some "LOW/MODERATE RISK" ∧
    ((fetch_california_data envAllNaN "2025-10-12").metrics.map Metric.value).head? =
      some "nan" :=
  nan_mean_live_low_risk envAllNaN "2025-10-12" ["OMI-Aura_L3.he5"] [nanRaw]
    rfl (by decide) rfl computeMean_allNaN

end HabiTech
